import Mathlib

/-!
Verification of the registration submission flow of
`src/frontend/src/auth/Register.js` (personal-finance-tracker).

The component is embedded shallowly: the `handleSubmit` handler becomes a
pure function from the component state and the outcome of the single
`fetch`/`res.json()` suspension to the list of observable effects (error
state writes, the outbound HTTP request, the `login` collaborator call,
the `navigate` call), together with whether the async function completed
or ended in an unhandled rejection.  JavaScript values that can flow out
of `res.json()` are modelled by `JsVal`; property access (`data.error`,
`data.user`, `data.access_token`) follows JS semantics, including the
`TypeError` on `null`.
-/

/-- JavaScript values as they can appear after `res.json()`, plus
`undefined`, which member access on an object can produce.  JSON numbers
are carried as integers; no claim computes with a numeric field. -/
inductive JsVal : Type where
  | undef : JsVal
  | null : JsVal
  | bool : Bool → JsVal
  | num : Int → JsVal
  | str : String → JsVal
  | arr : List JsVal → JsVal
  | obj : List (String × JsVal) → JsVal
deriving Repr

/-- Errors that can abort the async handler. -/
inductive JsError : Type where
  | typeError : JsError
  | networkError : JsError
  | jsonParseError : JsError
deriving Repr, DecidableEq

/-- Field lookup on an object's field list: the value of the first
binding of `k`, or `undefined` when the key is absent. -/
def jField (fields : List (String × JsVal)) (k : String) : JsVal :=
  match fields.find? (fun p => p.1 = k) with
  | some p => p.2
  | none => JsVal.undef

/-- JS member access `v.k`: throws `TypeError` on `null`/`undefined`,
looks the key up on an object, and yields `undefined` on any other
primitive (which is boxed, owns no such key). -/
def jsMember (v : JsVal) (k : String) : Except JsError JsVal :=
  match v with
  | JsVal.undef => Except.error JsError.typeError
  | JsVal.null => Except.error JsError.typeError
  | JsVal.obj fields => Except.ok (jField fields k)
  | _ => Except.ok JsVal.undef

/-- Lower-case hex digit for a value below 16, as `Number.toString(16)`
produces inside `JSON.stringify`'s `\u00XX` escapes. -/
def hexDigitCh (n : Nat) : Char :=
  if n < 10 then Char.ofNat (48 + n) else Char.ofNat (87 + n)

/-- The escape of one character under ECMA-262 `QuoteJSONString`:
quote and backslash get a backslash, the named control characters get
their short escapes, other control characters get `\u00XX`, everything
else passes through.  (Lean's `Char` has no lone surrogates, so the
surrogate clause of the spec is vacuous here.) -/
def escapeChar (c : Char) : List Char :=
  if c = '"' then ['\\', '"']
  else if c = '\\' then ['\\', '\\']
  else if c = Char.ofNat 8 then ['\\', 'b']
  else if c = Char.ofNat 9 then ['\\', 't']
  else if c = Char.ofNat 10 then ['\\', 'n']
  else if c = Char.ofNat 12 then ['\\', 'f']
  else if c = Char.ofNat 13 then ['\\', 'r']
  else if c.toNat < 32 then
    ['\\', 'u', '0', '0', hexDigitCh (c.toNat / 16), hexDigitCh (c.toNat % 16)]
  else [c]

/-- Escape a character list, character by character. -/
def escapeList : List Char → List Char
  | [] => []
  | c :: cs => escapeChar c ++ escapeList cs

/-- `JSON.stringify` of a string value: the escaped body in quotes. -/
def quoteJSONString (s : String) : String :=
  String.mk ('"' :: (escapeList s.data ++ ['"']))

/-- `JSON.stringify({ username, email, password })` for string-valued
fields: keys in source order, no whitespace. -/
def stringifyRegistration (username email password : String) : String :=
  "\x7b\"username\":" ++ quoteJSONString username ++
  ",\"email\":" ++ quoteJSONString email ++
  ",\"password\":" ++ quoteJSONString password ++ "\x7d"

/-- An outbound HTTP request as `fetch` receives it. -/
structure HttpRequest : Type where
  url : String
  method : String
  headers : List (String × String)
  body : String
deriving Repr

/-- The hard-coded endpoint of the registration POST. -/
def registerUrl : String :=
  "https://personal-finance-tracker-gbi4.onrender.com/api/auth/register"

/-- The component state the handler reads and writes: the three field
states and the error state.  `error` is a `JsVal` because
`setError(data.error)` can store `undefined`. -/
structure FormState : Type where
  username : String
  email : String
  password : String
  error : JsVal

/-- The request `handleSubmit` builds from the current state. -/
def mkRequest (st : FormState) : HttpRequest :=
  { url := registerUrl
    method := "POST"
    headers := [("Content-Type", "application/json")]
    body := stringifyRegistration st.username st.email st.password }

/-- `Response.ok` of the Fetch API: status in the inclusive range
200–299. -/
def resOk (status : Nat) : Bool :=
  decide (200 ≤ status) && decide (status ≤ 299)

/-- One observable effect of the component.  The three field setters are
the `onChange` handlers' effects; `handleSubmit` itself can emit the
other four. -/
inductive Event : Type where
  | preventDefault : Event
  | setUsername : String → Event
  | setEmail : String → Event
  | setPassword : String → Event
  | setErrorSt : JsVal → Event
  | request : HttpRequest → Event
  | login : JsVal → JsVal → Event
  | navigate : String → Event
deriving Repr

/-- How the body of `fetch(...)` followed by `res.json()` resolves:
the parse of the body of a response that arrived, or `notJson` when
`res.json()` rejects. -/
inductive BodyParse : Type where
  | notJson : BodyParse
  | json : JsVal → BodyParse

/-- The outcome of the handler's sole suspension: the network rejects,
or a response with a status and a body-parse result arrives. -/
inductive FetchOutcome : Type where
  | networkError : FetchOutcome
  | response : Nat → BodyParse → FetchOutcome

/-- Whether the async handler ran to completion or ended in an unhandled
rejection carrying the given error. -/
inductive HandlerEnd : Type where
  | completed : HandlerEnd
  | rejected : JsError → HandlerEnd
deriving Repr, DecidableEq

/-- The effects of `handleSubmit` up to its suspension point:
`e.preventDefault()`, `setError("")`, and the issued request. -/
def submitPhaseA (st : FormState) : List Event :=
  [Event.preventDefault, Event.setErrorSt (JsVal.str ""), Event.request (mkRequest st)]

/-- The effects of `handleSubmit` after the response resolves: the
`if (!res.ok)` branch on the parsed body.  Member accesses that throw
abort the handler with an unhandled rejection. -/
def submitPhaseB (fo : FetchOutcome) : List Event × HandlerEnd :=
  match fo with
  | FetchOutcome.networkError => ([], HandlerEnd.rejected JsError.networkError)
  | FetchOutcome.response status body =>
    match body with
    | BodyParse.notJson => ([], HandlerEnd.rejected JsError.jsonParseError)
    | BodyParse.json data =>
      if !(resOk status) then
        match jsMember data "error" with
        | Except.error err => ([], HandlerEnd.rejected err)
        | Except.ok v => ([Event.setErrorSt v], HandlerEnd.completed)
      else
        match jsMember data "user" with
        | Except.error err => ([], HandlerEnd.rejected err)
        | Except.ok u =>
          match jsMember data "access_token" with
          | Except.error err => ([], HandlerEnd.rejected err)
          | Except.ok t =>
            ([Event.login u t, Event.navigate "/dashboard"], HandlerEnd.completed)

/-- The whole `handleSubmit` invocation: its effect trace and how the
async function ended, as a function of the state it closed over and the
suspension's outcome. -/
def handleSubmit (st : FormState) (fo : FetchOutcome) : List Event × HandlerEnd :=
  (submitPhaseA st ++ (submitPhaseB fo).1, (submitPhaseB fo).2)

/-- How one effect acts on the component state: the four `useState`
setters write their slot; the rest leave the state alone. -/
def applyEvent (st : FormState) : Event → FormState
  | Event.setUsername s => { st with username := s }
  | Event.setEmail s => { st with email := s }
  | Event.setPassword s => { st with password := s }
  | Event.setErrorSt v => { st with error := v }
  | _ => st

/-- Fold a trace of effects over a state. -/
def applyTrace (st : FormState) (es : List Event) : FormState :=
  es.foldl applyEvent st

/-- The requests a trace issues. -/
def requestsOf (es : List Event) : List HttpRequest :=
  es.filterMap fun e =>
    match e with
    | Event.request r => some r
    | _ => none

/-- The `login(user, token)` calls a trace makes. -/
def loginCallsOf (es : List Event) : List (JsVal × JsVal) :=
  es.filterMap fun e =>
    match e with
    | Event.login u t => some (u, t)
    | _ => none

/-- The `navigate(path)` calls a trace makes. -/
def navCallsOf (es : List Event) : List String :=
  es.filterMap fun e =>
    match e with
    | Event.navigate p => some p
    | _ => none

/-- The values written to the error state by a trace, in order. -/
def errorSetsOf (es : List Event) : List JsVal :=
  es.filterMap fun e =>
    match e with
    | Event.setErrorSt v => some v
    | _ => none

/-- JS truthiness of a value, as the conditional rendering
`{error && <p>…</p>}` tests it. -/
def truthy : JsVal → Bool
  | JsVal.undef => false
  | JsVal.null => false
  | JsVal.bool b => b
  | JsVal.num n => decide (n ≠ 0)
  | JsVal.str s => decide (s ≠ "")
  | JsVal.arr _ => true
  | JsVal.obj _ => true

/-- The error paragraph the component renders: the error value when it
is truthy, nothing otherwise. -/
def renderedError (st : FormState) : Option JsVal :=
  if truthy st.error then some st.error else none

/-- Two overlapping invocations of `handleSubmit`, the second starting
before the first's response resolves: both pre-suspension phases run
first (in submission order), then the two resumptions run in resolution
order, `fo1` resolving first and `fo2` last.  This is the schedule of
the JS event loop for a re-entrant submission. -/
def reentrantTrace (st1 st2 : FormState) (fo1 fo2 : FetchOutcome) : List Event :=
  submitPhaseA st1 ++ submitPhaseA st2 ++ (submitPhaseB fo1).1 ++ (submitPhaseB fo2).1

/-!
A decoder for the exact body shape `stringifyRegistration` emits.  It is
not part of the program; it witnesses that the serialization is lossless,
i.e. that the typed field values round-trip unchanged into the request
body. -/

/-- Value of a hex digit character, lower or upper case. -/
def hexVal (c : Char) : Option Nat :=
  if 48 ≤ c.toNat ∧ c.toNat ≤ 57 then some (c.toNat - 48)
  else if 97 ≤ c.toNat ∧ c.toNat ≤ 102 then some (c.toNat - 87)
  else if 65 ≤ c.toNat ∧ c.toNat ≤ 70 then some (c.toNat - 55)
  else none

/-- Prepend a decoded character to a decoder result. -/
def consDec (c : Char) (r : Option (List Char × List Char)) :
    Option (List Char × List Char) :=
  r.map (fun p => (c :: p.1, p.2))

/-- Decode the body of a JSON string literal up to its closing quote,
returning the decoded characters and the input after the quote. -/
def unquoteAux : List Char → Option (List Char × List Char)
  | [] => none
  | c :: rest =>
    if c = '"' then some ([], rest)
    else if c = '\\' then
      match rest with
      | [] => none
      | e :: rest2 =>
        if e = '"' then consDec '"' (unquoteAux rest2)
        else if e = '\\' then consDec '\\' (unquoteAux rest2)
        else if e = 'b' then consDec (Char.ofNat 8) (unquoteAux rest2)
        else if e = 't' then consDec (Char.ofNat 9) (unquoteAux rest2)
        else if e = 'n' then consDec (Char.ofNat 10) (unquoteAux rest2)
        else if e = 'f' then consDec (Char.ofNat 12) (unquoteAux rest2)
        else if e = 'r' then consDec (Char.ofNat 13) (unquoteAux rest2)
        else if e = 'u' then
          match rest2 with
          | h1 :: h2 :: h3 :: h4 :: rest3 =>
            match hexVal h1, hexVal h2, hexVal h3, hexVal h4 with
            | some a, some b, some c, some d =>
              consDec (Char.ofNat (4096 * a + 256 * b + 16 * c + d)) (unquoteAux rest3)
            | _, _, _, _ => none
          | _ => none
        else none
    else consDec c (unquoteAux rest)

/-- Decode a full JSON string literal: opening quote, body, closing
quote; returns the decoded characters and the remaining input. -/
def unquote : List Char → Option (List Char × List Char)
  | '"' :: rest => unquoteAux rest
  | _ => none

/-- Consume an expected literal from the front of the input. -/
def dropLit : List Char → List Char → Option (List Char)
  | [], xs => some xs
  | p :: ps, x :: xs => if x = p then dropLit ps xs else none
  | _ :: _, [] => none

/-- Decode a request body of the exact shape built by
`stringifyRegistration`, recovering the three field strings. -/
def decodeRegistration (body : String) : Option (String × String × String) := do
  let r1 ← dropLit "\x7b\"username\":".data body.data
  let (u, r2) ← unquote r1
  let r3 ← dropLit ",\"email\":".data r2
  let (e, r4) ← unquote r3
  let r5 ← dropLit ",\"password\":".data r4
  let (p, r6) ← unquote r5
  match r6 with
  | ['\x7d'] => some (String.mk u, String.mk e, String.mk p)
  | _ => none

lemma hexVal_hexDigitCh (n : Nat) (h : n < 16) : hexVal (hexDigitCh n) = some n := by
  interval_cases n <;> decide

set_option maxHeartbeats 1000000 in
lemma unquoteAux_escapeChar (c : Char) (t : List Char) :
    unquoteAux (escapeChar c ++ t) = consDec c (unquoteAux t) := by
  unfold escapeChar
  split_ifs with h1 h2 h3 h4 h5 h6 h7 h8
  case pos =>
    subst h1
    rw [List.cons_append, List.cons_append, List.nil_append, unquoteAux.eq_def]
    norm_num
    first
    | (exact fun hh => absurd hh (by decide))
    | (split_ifs <;> simp_all [Char.ext_iff])
  case pos =>
    subst h2
    rw [List.cons_append, List.cons_append, List.nil_append, unquoteAux.eq_def]
    norm_num
    first
    | (exact fun hh => absurd hh (by decide))
    | (split_ifs <;> simp_all [Char.ext_iff])
  case pos =>
    subst h3
    rw [List.cons_append, List.cons_append, List.nil_append, unquoteAux.eq_def]
    norm_num
    first
    | (exact fun hh => absurd hh (by decide))
    | (split_ifs <;> simp_all [Char.ext_iff])
  case pos =>
    subst h4
    rw [List.cons_append, List.cons_append, List.nil_append, unquoteAux.eq_def]
    norm_num
    first
    | (exact fun hh => absurd hh (by decide))
    | (split_ifs <;> simp_all [Char.ext_iff])
  case pos =>
    subst h5
    rw [List.cons_append, List.cons_append, List.nil_append, unquoteAux.eq_def]
    norm_num
    first
    | (exact fun hh => absurd hh (by decide))
    | (split_ifs <;> simp_all [Char.ext_iff])
  case pos =>
    subst h6
    rw [List.cons_append, List.cons_append, List.nil_append, unquoteAux.eq_def]
    norm_num
    first
    | (exact fun hh => absurd hh (by decide))
    | (split_ifs <;> simp_all [Char.ext_iff])
  case pos =>
    subst h7
    rw [List.cons_append, List.cons_append, List.nil_append, unquoteAux.eq_def]
    norm_num
    first
    | (exact fun hh => absurd hh (by decide))
    | (split_ifs <;> simp_all [Char.ext_iff])
  case pos =>
    have hdiv : c.toNat / 16 < 16 := by omega
    have hmod : c.toNat % 16 < 16 := by omega
    have hn : 16 * (c.toNat / 16) + c.toNat % 16 = c.toNat := Nat.div_add_mod _ _
    simp only [List.cons_append, List.nil_append]
    rw [unquoteAux.eq_def]
    norm_num [hexVal_hexDigitCh _ hdiv, hexVal_hexDigitCh _ hmod,
      (by decide : hexVal '0' = some 0)]
    rw [hn, Char.ofNat_toNat]
    split_ifs <;> simp_all [Char.ext_iff]
  case neg =>
    rw [List.cons_append, List.nil_append, unquoteAux.eq_def]
    simp [h1, h2]

lemma unquoteAux_escapeList (s t : List Char) :
    unquoteAux (escapeList s ++ '"' :: t) = some (s, t) := by
  induction s with
  | nil =>
    rw [escapeList, List.nil_append, unquoteAux.eq_def]
    norm_num
  | cons c cs ih =>
    rw [escapeList, List.append_assoc, unquoteAux_escapeChar, ih]
    rfl

lemma unquote_quote (s : String) (t : List Char) :
    unquote ((quoteJSONString s).data ++ t) = some (s.data, t) := by
  have h : (quoteJSONString s).data ++ t = '"' :: (escapeList s.data ++ '"' :: t) := by
    show ('"' :: (escapeList s.data ++ ['"'])) ++ t = _
    simp
  rw [h]
  show unquoteAux (escapeList s.data ++ '"' :: t) = _
  exact unquoteAux_escapeList _ _

lemma dropLit_append (p xs : List Char) : dropLit p (p ++ xs) = some xs := by
  induction p with
  | nil => rfl
  | cons c cs ih => simp [dropLit, ih]

lemma dropLit_nil (xs : List Char) : dropLit [] xs = some xs := rfl

lemma dropLit_cons (c : Char) (ps xs : List Char) :
    dropLit (c :: ps) (c :: xs) = dropLit ps xs := by
  simp [dropLit]

lemma decode_stringify (u e p : String) :
    decodeRegistration (stringifyRegistration u e p) = some (u, e, p) := by
  unfold decodeRegistration stringifyRegistration
  simp [String.data_append, List.append_assoc, dropLit_nil, dropLit_cons, unquote_quote,
    (by decide : ("\x7d" : String).data = ['\x7d'])]

/-- Requests issued by a full `handleSubmit` invocation: exactly the one
request built in phase A; no branch of the response handling issues
another. -/
lemma requestsOf_handleSubmit (st : FormState) (fo : FetchOutcome) :
    requestsOf (handleSubmit st fo).1 = [mkRequest st] := by
  rcases fo with _ | ⟨status, _ | data⟩
  · simp [handleSubmit, submitPhaseA, submitPhaseB, requestsOf, List.filterMap_append]
  · simp [handleSubmit, submitPhaseA, submitPhaseB, requestsOf, List.filterMap_append]
  · rcases data with _ | _ | b | n | s | xs | fields <;>
      simp [handleSubmit, submitPhaseA, submitPhaseB, jsMember, requestsOf,
        List.filterMap_append] <;>
      split_ifs <;> simp [requestsOf]

/-- Claim C1: on a 2xx response with a parsed object body, the handler
calls `login` exactly once, with exactly the body's `user` and
`access_token` fields, then — after that call — navigates to
`"/dashboard"`; the only error-state write on this path is the initial
clear, and the async function completes. -/
theorem success_calls_login_once_then_navigates
    (st : FormState) (status : Nat) (fields : List (String × JsVal))
    (hok : resOk status = true) :
    (handleSubmit st (FetchOutcome.response status (BodyParse.json (JsVal.obj fields)))).1
      = submitPhaseA st ++
        [Event.login (jField fields "user") (jField fields "access_token"),
         Event.navigate "/dashboard"] ∧
    loginCallsOf (handleSubmit st (FetchOutcome.response status (BodyParse.json (JsVal.obj fields)))).1
      = [(jField fields "user", jField fields "access_token")] ∧
    navCallsOf (handleSubmit st (FetchOutcome.response status (BodyParse.json (JsVal.obj fields)))).1
      = ["/dashboard"] ∧
    errorSetsOf (handleSubmit st (FetchOutcome.response status (BodyParse.json (JsVal.obj fields)))).1
      = [JsVal.str ""] ∧
    (handleSubmit st (FetchOutcome.response status (BodyParse.json (JsVal.obj fields)))).2
      = HandlerEnd.completed := by
  simp [handleSubmit, submitPhaseA, submitPhaseB, jsMember, hok,
    loginCallsOf, navCallsOf, errorSetsOf, List.filterMap_append]

/-- Witness for C1: the spec's own scenario, a 201 response carrying
`{user: {id: 1}, access_token: "tok"}`. -/
theorem success_calls_login_once_then_navigates_witness :
    resOk 201 = true ∧
    ((handleSubmit ⟨"alice", "alice@example.com", "secret1", JsVal.str ""⟩
        (FetchOutcome.response 201 (BodyParse.json (JsVal.obj
          [("user", JsVal.obj [("id", JsVal.num 1)]), ("access_token", JsVal.str "tok")])))).1
      = submitPhaseA ⟨"alice", "alice@example.com", "secret1", JsVal.str ""⟩ ++
        [Event.login (JsVal.obj [("id", JsVal.num 1)]) (JsVal.str "tok"),
         Event.navigate "/dashboard"] ∧
    loginCallsOf (handleSubmit ⟨"alice", "alice@example.com", "secret1", JsVal.str ""⟩
        (FetchOutcome.response 201 (BodyParse.json (JsVal.obj
          [("user", JsVal.obj [("id", JsVal.num 1)]), ("access_token", JsVal.str "tok")])))).1
      = [(JsVal.obj [("id", JsVal.num 1)], JsVal.str "tok")] ∧
    navCallsOf (handleSubmit ⟨"alice", "alice@example.com", "secret1", JsVal.str ""⟩
        (FetchOutcome.response 201 (BodyParse.json (JsVal.obj
          [("user", JsVal.obj [("id", JsVal.num 1)]), ("access_token", JsVal.str "tok")])))).1
      = ["/dashboard"] ∧
    errorSetsOf (handleSubmit ⟨"alice", "alice@example.com", "secret1", JsVal.str ""⟩
        (FetchOutcome.response 201 (BodyParse.json (JsVal.obj
          [("user", JsVal.obj [("id", JsVal.num 1)]), ("access_token", JsVal.str "tok")])))).1
      = [JsVal.str ""] ∧
    (handleSubmit ⟨"alice", "alice@example.com", "secret1", JsVal.str ""⟩
        (FetchOutcome.response 201 (BodyParse.json (JsVal.obj
          [("user", JsVal.obj [("id", JsVal.num 1)]), ("access_token", JsVal.str "tok")])))).2
      = HandlerEnd.completed) :=
  ⟨by decide, success_calls_login_once_then_navigates _ 201 _ (by decide)⟩

/-- Claim C2: on a non-2xx response with a parsed object body, the
handler's only effect after the request is one error-state write holding
exactly the body's `error` field; the final error state is that value
verbatim, no `login` and no `navigate` call occurs, and the async
function completes. -/
theorem failure_surfaces_error_verbatim_without_login_or_nav
    (st : FormState) (status : Nat) (fields : List (String × JsVal))
    (hbad : resOk status = false) :
    (handleSubmit st (FetchOutcome.response status (BodyParse.json (JsVal.obj fields)))).1
      = submitPhaseA st ++ [Event.setErrorSt (jField fields "error")] ∧
    (applyTrace st (handleSubmit st (FetchOutcome.response status (BodyParse.json (JsVal.obj fields)))).1).error
      = jField fields "error" ∧
    loginCallsOf (handleSubmit st (FetchOutcome.response status (BodyParse.json (JsVal.obj fields)))).1
      = [] ∧
    navCallsOf (handleSubmit st (FetchOutcome.response status (BodyParse.json (JsVal.obj fields)))).1
      = [] ∧
    (handleSubmit st (FetchOutcome.response status (BodyParse.json (JsVal.obj fields)))).2
      = HandlerEnd.completed := by
  simp [handleSubmit, submitPhaseA, submitPhaseB, jsMember, hbad,
    loginCallsOf, navCallsOf, applyTrace, applyEvent, List.filterMap_append]

/-- Witness for C2: the spec's own scenario, a 400 response carrying
`{error: "Email already exists"}`. -/
theorem failure_surfaces_error_verbatim_without_login_or_nav_witness :
    resOk 400 = false ∧
    ((handleSubmit ⟨"alice", "alice@example.com", "secret1", JsVal.str ""⟩
        (FetchOutcome.response 400 (BodyParse.json (JsVal.obj
          [("error", JsVal.str "Email already exists")])))).1
      = submitPhaseA ⟨"alice", "alice@example.com", "secret1", JsVal.str ""⟩ ++
        [Event.setErrorSt (JsVal.str "Email already exists")] ∧
    (applyTrace ⟨"alice", "alice@example.com", "secret1", JsVal.str ""⟩
        (handleSubmit ⟨"alice", "alice@example.com", "secret1", JsVal.str ""⟩
          (FetchOutcome.response 400 (BodyParse.json (JsVal.obj
            [("error", JsVal.str "Email already exists")])))).1).error
      = JsVal.str "Email already exists" ∧
    loginCallsOf (handleSubmit ⟨"alice", "alice@example.com", "secret1", JsVal.str ""⟩
        (FetchOutcome.response 400 (BodyParse.json (JsVal.obj
          [("error", JsVal.str "Email already exists")])))).1
      = [] ∧
    navCallsOf (handleSubmit ⟨"alice", "alice@example.com", "secret1", JsVal.str ""⟩
        (FetchOutcome.response 400 (BodyParse.json (JsVal.obj
          [("error", JsVal.str "Email already exists")])))).1
      = [] ∧
    (handleSubmit ⟨"alice", "alice@example.com", "secret1", JsVal.str ""⟩
        (FetchOutcome.response 400 (BodyParse.json (JsVal.obj
          [("error", JsVal.str "Email already exists")])))).2
      = HandlerEnd.completed) :=
  ⟨by decide, failure_surfaces_error_verbatim_without_login_or_nav _ 400 _ (by decide)⟩

/-- Claim C3: every invocation sends exactly one request, whose body is
the JSON serialization of the three field states as they are — and that
serialization is lossless: decoding the body recovers the exact
`username`, `email`, `password` strings, so the typed values round-trip
unchanged into the outbound request body. -/
theorem request_body_roundtrips_exact_field_values
    (st : FormState) (fo : FetchOutcome) :
    requestsOf (handleSubmit st fo).1 = [mkRequest st] ∧
    (mkRequest st).body = stringifyRegistration st.username st.email st.password ∧
    decodeRegistration (mkRequest st).body = some (st.username, st.email, st.password) :=
  ⟨requestsOf_handleSubmit st fo, rfl, decode_stringify _ _ _⟩

/-- Claim C4: every invocation clears the error state as its first state
write — before the request is issued, and in particular before any
response-dependent effect — so a leftover message from a prior failed
attempt is gone once a new submission begins. -/
theorem error_cleared_at_submission_start
    (st : FormState) (fo : FetchOutcome) :
    (handleSubmit st fo).1
      = Event.preventDefault :: Event.setErrorSt (JsVal.str "")
          :: Event.request (mkRequest st) :: (submitPhaseB fo).1 ∧
    (applyTrace st (submitPhaseA st)).error = JsVal.str "" := by
  constructor
  · rfl
  · simp [applyTrace, submitPhaseA, applyEvent]

/-- Claim C5: every invocation makes exactly one network call — a single
POST with a `Content-Type: application/json` header to the fixed
absolute URL ending in `/api/auth/register` — and no branch issues a
second request. -/
theorem single_post_request_with_json_header
    (st : FormState) (fo : FetchOutcome) :
    requestsOf (handleSubmit st fo).1 = [mkRequest st] ∧
    (mkRequest st).method = "POST" ∧
    (mkRequest st).headers = [("Content-Type", "application/json")] ∧
    (mkRequest st).url = registerUrl ∧
    ∃ base, registerUrl = base ++ "/api/auth/register" :=
  ⟨requestsOf_handleSubmit st fo, rfl, rfl, rfl,
    ⟨"https://personal-finance-tracker-gbi4.onrender.com", rfl⟩⟩

/-- Claim C6: on an application-level failure (non-2xx object response)
the resulting component state is the incoming state with only the error
slot rewritten: `username`, `email` and `password` keep their last-typed
values. -/
theorem failure_leaves_fields_unchanged
    (st : FormState) (status : Nat) (fields : List (String × JsVal))
    (hbad : resOk status = false) :
    applyTrace st (handleSubmit st (FetchOutcome.response status (BodyParse.json (JsVal.obj fields)))).1
      = { st with error := jField fields "error" } ∧
    (applyTrace st (handleSubmit st (FetchOutcome.response status (BodyParse.json (JsVal.obj fields)))).1).username
      = st.username ∧
    (applyTrace st (handleSubmit st (FetchOutcome.response status (BodyParse.json (JsVal.obj fields)))).1).email
      = st.email ∧
    (applyTrace st (handleSubmit st (FetchOutcome.response status (BodyParse.json (JsVal.obj fields)))).1).password
      = st.password := by
  have h : applyTrace st (handleSubmit st (FetchOutcome.response status (BodyParse.json (JsVal.obj fields)))).1
      = { st with error := jField fields "error" } := by
    simp [handleSubmit, submitPhaseA, submitPhaseB, jsMember, hbad,
      applyTrace, applyEvent]
  exact ⟨h, by rw [h], by rw [h], by rw [h]⟩

/-- Witness for C6: a 409 failure response leaves the typed values in
place and rewrites only the error slot. -/
theorem failure_leaves_fields_unchanged_witness :
    resOk 409 = false ∧
    (applyTrace ⟨"bob", "bob@example.com", "hunter22", JsVal.str "old message"⟩
        (handleSubmit ⟨"bob", "bob@example.com", "hunter22", JsVal.str "old message"⟩
          (FetchOutcome.response 409 (BodyParse.json (JsVal.obj
            [("error", JsVal.str "Email already exists")])))).1
      = ⟨"bob", "bob@example.com", "hunter22", JsVal.str "Email already exists"⟩ ∧
    (applyTrace ⟨"bob", "bob@example.com", "hunter22", JsVal.str "old message"⟩
        (handleSubmit ⟨"bob", "bob@example.com", "hunter22", JsVal.str "old message"⟩
          (FetchOutcome.response 409 (BodyParse.json (JsVal.obj
            [("error", JsVal.str "Email already exists")])))).1).username
      = "bob" ∧
    (applyTrace ⟨"bob", "bob@example.com", "hunter22", JsVal.str "old message"⟩
        (handleSubmit ⟨"bob", "bob@example.com", "hunter22", JsVal.str "old message"⟩
          (FetchOutcome.response 409 (BodyParse.json (JsVal.obj
            [("error", JsVal.str "Email already exists")])))).1).email
      = "bob@example.com" ∧
    (applyTrace ⟨"bob", "bob@example.com", "hunter22", JsVal.str "old message"⟩
        (handleSubmit ⟨"bob", "bob@example.com", "hunter22", JsVal.str "old message"⟩
          (FetchOutcome.response 409 (BodyParse.json (JsVal.obj
            [("error", JsVal.str "Email already exists")])))).1).password
      = "hunter22") :=
  ⟨by decide, failure_leaves_fields_unchanged _ 409 _ (by decide)⟩

/-- Claim C7: a network rejection, or a body that fails to parse as JSON
(the parse is attempted unconditionally, on any status), is caught
nowhere: the handler ends in an unhandled rejection after only its
pre-suspension effects, so no `login`, no `navigate`, and no error-state
write beyond the initial clear — the error state stays empty. -/
theorem transport_or_parse_failure_rejects_unhandled
    (st : FormState) (status : Nat) :
    handleSubmit st FetchOutcome.networkError
      = (submitPhaseA st, HandlerEnd.rejected JsError.networkError) ∧
    handleSubmit st (FetchOutcome.response status BodyParse.notJson)
      = (submitPhaseA st, HandlerEnd.rejected JsError.jsonParseError) ∧
    loginCallsOf (submitPhaseA st) = [] ∧
    navCallsOf (submitPhaseA st) = [] ∧
    errorSetsOf (submitPhaseA st) = [JsVal.str ""] ∧
    (applyTrace st (submitPhaseA st)).error = JsVal.str "" := by
  refine ⟨by simp [handleSubmit, submitPhaseB], by simp [handleSubmit, submitPhaseB],
    ?_, ?_, ?_, ?_⟩ <;>
    simp [submitPhaseA, loginCallsOf, navCallsOf, errorSetsOf, applyTrace, applyEvent]

/-- Claim C8: a non-2xx object body with no `error` field still has the
absent field's value — `undefined` — written to the error state (there
is no fallback message), and the conditional error paragraph renders
nothing because `undefined` is falsy; the handler completes normally. -/
theorem missing_error_field_sets_undefined_and_renders_nothing
    (st : FormState) (status : Nat) (fields : List (String × JsVal))
    (hbad : resOk status = false)
    (habs : fields.find? (fun q => q.1 = "error") = none) :
    (applyTrace st (handleSubmit st (FetchOutcome.response status (BodyParse.json (JsVal.obj fields)))).1).error
      = JsVal.undef ∧
    renderedError (applyTrace st (handleSubmit st (FetchOutcome.response status (BodyParse.json (JsVal.obj fields)))).1)
      = none ∧
    (handleSubmit st (FetchOutcome.response status (BodyParse.json (JsVal.obj fields)))).2
      = HandlerEnd.completed := by
  simp [handleSubmit, submitPhaseA, submitPhaseB, jsMember, hbad, jField, habs,
    applyTrace, applyEvent, renderedError, truthy]

/-- Witness for C8: a 422 response whose body `{message: "oops"}` has no
`error` field. -/
theorem missing_error_field_sets_undefined_and_renders_nothing_witness :
    resOk 422 = false ∧
    List.find? (fun q => q.1 = "error") [("message", JsVal.str "oops")] = none ∧
    ((applyTrace ⟨"carol", "carol@example.com", "pass123", JsVal.str ""⟩
        (handleSubmit ⟨"carol", "carol@example.com", "pass123", JsVal.str ""⟩
          (FetchOutcome.response 422 (BodyParse.json (JsVal.obj
            [("message", JsVal.str "oops")])))).1).error
      = JsVal.undef ∧
    renderedError (applyTrace ⟨"carol", "carol@example.com", "pass123", JsVal.str ""⟩
        (handleSubmit ⟨"carol", "carol@example.com", "pass123", JsVal.str ""⟩
          (FetchOutcome.response 422 (BodyParse.json (JsVal.obj
            [("message", JsVal.str "oops")])))).1)
      = none ∧
    (handleSubmit ⟨"carol", "carol@example.com", "pass123", JsVal.str ""⟩
        (FetchOutcome.response 422 (BodyParse.json (JsVal.obj
          [("message", JsVal.str "oops")])))).2
      = HandlerEnd.completed) :=
  ⟨by decide, rfl,
    missing_error_field_sets_undefined_and_renders_nothing _ 422 _ (by decide) rfl⟩

/-- Claim C9: re-entrant submission is unguarded — when a second
invocation starts before the first's response resolves, the interleaved
schedule issues two independent requests (no de-duplication), and with
two failure responses the final visible error state is the one set by
whichever response resolves last, regardless of the first. -/
theorem reentrant_submissions_race_last_response_wins
    (st1 st2 : FormState) (s1 s2 : Nat)
    (f1 f2 : List (String × JsVal))
    (h1 : resOk s1 = false) (h2 : resOk s2 = false) :
    requestsOf (reentrantTrace st1 st2
        (FetchOutcome.response s1 (BodyParse.json (JsVal.obj f1)))
        (FetchOutcome.response s2 (BodyParse.json (JsVal.obj f2))))
      = [mkRequest st1, mkRequest st2] ∧
    (applyTrace st1 (reentrantTrace st1 st2
        (FetchOutcome.response s1 (BodyParse.json (JsVal.obj f1)))
        (FetchOutcome.response s2 (BodyParse.json (JsVal.obj f2))))).error
      = jField f2 "error" := by
  constructor
  · simp [reentrantTrace, submitPhaseA, submitPhaseB, jsMember, h1, h2,
      requestsOf, List.filterMap_append]
  · simp [reentrantTrace, submitPhaseA, submitPhaseB, jsMember, h1, h2,
      applyTrace, applyEvent]

/-- Witness for C9: two overlapping failure submissions; the error shown
at the end is the second response's, which resolved last. -/
theorem reentrant_submissions_race_last_response_wins_witness :
    resOk 400 = false ∧ resOk 409 = false ∧
    (requestsOf (reentrantTrace
        ⟨"dave", "dave@example.com", "pw12345", JsVal.str ""⟩
        ⟨"dave", "dave@example.com", "pw12345", JsVal.str ""⟩
        (FetchOutcome.response 400 (BodyParse.json (JsVal.obj
          [("error", JsVal.str "first failure")])))
        (FetchOutcome.response 409 (BodyParse.json (JsVal.obj
          [("error", JsVal.str "second failure")]))))
      = [mkRequest ⟨"dave", "dave@example.com", "pw12345", JsVal.str ""⟩,
         mkRequest ⟨"dave", "dave@example.com", "pw12345", JsVal.str ""⟩] ∧
    (applyTrace ⟨"dave", "dave@example.com", "pw12345", JsVal.str ""⟩
        (reentrantTrace
          ⟨"dave", "dave@example.com", "pw12345", JsVal.str ""⟩
          ⟨"dave", "dave@example.com", "pw12345", JsVal.str ""⟩
          (FetchOutcome.response 400 (BodyParse.json (JsVal.obj
            [("error", JsVal.str "first failure")])))
          (FetchOutcome.response 409 (BodyParse.json (JsVal.obj
            [("error", JsVal.str "second failure")]))))).error
      = JsVal.str "second failure") :=
  ⟨by decide, by decide,
    reentrant_submissions_race_last_response_wins _ _ 400 409 _ _ (by decide) (by decide)⟩

/-- Claim C10: the shape of a success body is never validated — on a 2xx
response whose object body has neither a `user` nor an `access_token`
field, the handler still calls `login`, with `undefined` for both
arguments, and still navigates to `"/dashboard"`. -/
theorem success_shape_never_validated
    (st : FormState) (status : Nat) (fields : List (String × JsVal))
    (hok : resOk status = true)
    (huser : fields.find? (fun q => q.1 = "user") = none)
    (htok : fields.find? (fun q => q.1 = "access_token") = none) :
    loginCallsOf (handleSubmit st (FetchOutcome.response status (BodyParse.json (JsVal.obj fields)))).1
      = [(JsVal.undef, JsVal.undef)] ∧
    navCallsOf (handleSubmit st (FetchOutcome.response status (BodyParse.json (JsVal.obj fields)))).1
      = ["/dashboard"] ∧
    (handleSubmit st (FetchOutcome.response status (BodyParse.json (JsVal.obj fields)))).2
      = HandlerEnd.completed := by
  simp [handleSubmit, submitPhaseA, submitPhaseB, jsMember, hok, jField, huser, htok,
    loginCallsOf, navCallsOf, List.filterMap_append]

/-- Witness for C10: a 200 response whose body `{ok: true}` lacks both
expected fields; `login(undefined, undefined)` and the navigation still
happen. -/
theorem success_shape_never_validated_witness :
    resOk 200 = true ∧
    List.find? (fun q => q.1 = "user") [("ok", JsVal.bool true)] = none ∧
    List.find? (fun q => q.1 = "access_token") [("ok", JsVal.bool true)] = none ∧
    (loginCallsOf (handleSubmit ⟨"erin", "erin@example.com", "pw56789", JsVal.str ""⟩
        (FetchOutcome.response 200 (BodyParse.json (JsVal.obj [("ok", JsVal.bool true)])))).1
      = [(JsVal.undef, JsVal.undef)] ∧
    navCallsOf (handleSubmit ⟨"erin", "erin@example.com", "pw56789", JsVal.str ""⟩
        (FetchOutcome.response 200 (BodyParse.json (JsVal.obj [("ok", JsVal.bool true)])))).1
      = ["/dashboard"] ∧
    (handleSubmit ⟨"erin", "erin@example.com", "pw56789", JsVal.str ""⟩
        (FetchOutcome.response 200 (BodyParse.json (JsVal.obj [("ok", JsVal.bool true)])))).2
      = HandlerEnd.completed) :=
  ⟨by decide, rfl, rfl,
    success_shape_never_validated _ 200 _ (by decide) rfl rfl⟩
